import Mathlib

/-!
Verification of the image-processing pipeline of `RawProcessing.py`
(Film-Scan-Converter).  Pixel buffers are modelled as dependent arrays
indexed by `Fin`; exact rational / real arithmetic replaces numpy floats;
OpenCV / numpy library calls that are external to the repository
(thresholding, contour extraction, perspective warps, percentile
statistics, resampling) enter as explicit function parameters, while all
arithmetic, control flow and state updates written in the source itself
are transcribed directly.
-/

/-- A dense 2-D pixel buffer: `h` rows, `w` columns, pixels of type `α`
(`α` is a 3-channel sample, a mask byte, …). -/
structure Img (α : Type) where
  h : ℕ
  w : ℕ
  px : Fin h → Fin w → α

/-- Apply a function to every pixel (numpy elementwise broadcasting). -/
def Img.mapPix (f : α → β) (img : Img α) : Img β :=
  ⟨img.h, img.w, fun i j => f (img.px i j)⟩

/-- `cv2.rotate(img, cv2.ROTATE_90_CLOCKWISE)`. -/
def rot90cw (img : Img α) : Img α :=
  ⟨img.w, img.h, fun i j => img.px j.rev i⟩

/-- `cv2.rotate(img, cv2.ROTATE_90_COUNTERCLOCKWISE)`. -/
def rot90ccw (img : Img α) : Img α :=
  ⟨img.w, img.h, fun i j => img.px j i.rev⟩

/-- `cv2.rotate(img, cv2.ROTATE_180)`. -/
def rot180 (img : Img α) : Img α :=
  ⟨img.h, img.w, fun i j => img.px i.rev j.rev⟩

/-- `np.ascontiguousarray(img[:, ::-1])`: horizontal flip. -/
def flipH (img : Img α) : Img α :=
  ⟨img.h, img.w, fun i j => img.px i j.rev⟩

/-- `RawProcessing.rotate(self, img, undo=False)` (source lines 600-627):
applies the flip and quarter-turn rotation state of the photo, or
undoes them when `undo` is set.  `rotation` and `flip` are the instance
attributes `self.rotation` and `self.flip`. -/
def rotate (rotation : ℕ) (flip : Bool) (undo : Bool) (img : Img α) : Img α :=
  let r := rotation % 4
  if undo then
    let img := if flip then flipH img else img
    match r with
    | 0 => img
    | 1 => rot90ccw img
    | 2 => rot180 img
    | 3 => rot90cw img
    | _ => img
  else
    let img :=
      match r with
      | 0 => img
      | 1 => rot90cw img
      | 2 => rot180 img
      | 3 => rot90ccw img
      | _ => img
    if flip then flipH img else img

/-- Python `int(...)` / `np.int64(...)` on a float: truncation toward zero. -/
def pyInt (q : ℚ) : ℤ :=
  if 0 ≤ q then ⌊q⌋ else ⌈q⌉

/-- `max(l, key=f)` for nonempty `hd :: tl`: Python keeps the first element
whose key is maximal, replacing the current best only on a strictly
greater key. -/
def pyMaxBy (f : α → ℚ) (hd : α) (tl : List α) : α :=
  tl.foldl (fun b c => if f c > f b then c else b) hd

/-- `min(l, key=f)` for nonempty `hd :: tl`: keeps the first minimal. -/
def pyMinBy (f : α → ℚ) (hd : α) (tl : List α) : α :=
  tl.foldl (fun b c => if f c < f b then c else b) hd

/-- An OpenCV rotated rectangle `((cx, cy), (s0, s1), angle)`, used both
for the raw `cv2.minAreaRect` result and for the normalized rectangle the
estimator emits. -/
structure CvRect where
  center : ℚ × ℚ
  size : ℚ × ℚ
  angle : ℚ
deriving DecidableEq

/-- `RawProcessing.shrink_box(box, x, y)` (source lines 726-755): shrinks a
4-corner box by `x`/`y` percentages of its own width/height with a skew
correction.  Corners are `(x, y)` integer pairs, row `i` of the numpy
array being `box i`. -/
def shrink_box (box : Fin 4 → ℤ × ℤ) (x y : ℚ) : Fin 4 → ℤ × ℤ :=
  let rows : List (ℤ × ℤ) := [box 0, box 1, box 2, box 3]
  let s0 := (rows.map Prod.fst).mergeSort (fun a b => decide (a ≤ b))
  let s1 := (rows.map Prod.snd).mergeSort (fun a b => decide (a ≤ b))
  let topleft := pyMinBy (fun p => ((p.1 + p.2 : ℤ) : ℚ)) (box 0) [box 1, box 2, box 3]
  let index : Fin 4 :=
    (([0, 1, 2, 3] : List (Fin 4)).find?
      (fun i => (box i).1 = topleft.1 || (box i).2 = topleft.2)).getD 0
  let ordered : Fin 4 → ℤ × ℤ := fun i => box (i + index)
  let h : ℚ := ((s1.getD 2 0) + (s1.getD 3 0) - (s1.getD 0 0) - (s1.getD 1 0) : ℤ) / 2
  let w : ℚ := ((s0.getD 2 0) + (s0.getD 3 0) - (s0.getD 0 0) - (s0.getD 1 0) : ℤ) / 2
  let skew : ℚ := (((ordered 3).1 - (ordered 0).1 : ℤ) : ℚ) / w * 1.5
  let centre : ℚ × ℚ :=
    (((ordered 0).1 + (ordered 1).1 + (ordered 2).1 + (ordered 3).1 : ℤ) / 4,
     ((ordered 0).2 + (ordered 1).2 + (ordered 2).2 + (ordered 3).2 : ℤ) / 4)
  let y_offset := y / 100 * h
  let x_offset := x / 100 * w
  let offset : Fin 4 → ℤ × ℤ := fun i =>
    let p := ordered i
    let oy : ℤ := (if ((p.2 : ℚ) < centre.2) then pyInt y_offset else 0) +
                  (if ((p.2 : ℚ) > centre.2) then -(pyInt y_offset) else 0)
    let ox : ℤ := (if ((p.1 : ℚ) < centre.1) then pyInt x_offset else 0) +
                  (if ((p.1 : ℚ) > centre.1) then -(pyInt x_offset) else 0)
    let q : ℤ × ℤ := (ox, oy)
    let q : ℤ × ℤ := if q.1 > 0 then (q.1, q.2 - pyInt (x_offset * skew))
                     else (q.1, q.2 + pyInt (x_offset * skew))
    if q.2 < 0 then (q.1 - pyInt (y_offset * skew), q.2)
    else (q.1 + pyInt (y_offset * skew), q.2)
  let new_box : Fin 4 → ℤ × ℤ := fun i =>
    ((ordered i).1 + (offset i).1, (ordered i).2 + (offset i).2)
  fun i => new_box (i - index)

/-- `RawProcessing.find_optimal_crop` (source lines 386-399).  The OpenCV
primitives inside `get_threshold`, and `cv2.findContours`,
`cv2.contourArea` and `cv2.minAreaRect` are external library calls and
enter as parameters; the contour-emptiness check, largest-contour
selection, the angle canonicalization (swap the two size components and
add 90° when the raw angle is ≤ 0) and the normalization by the image
dimensions are transcribed from the source. -/
def find_optimal_crop {α T C : Type} (get_threshold : Img α → T)
    (findContours : T → List C) (contourArea : C → ℚ) (minAreaRect : C → CvRect)
    (RAW_IMG : Img α) : T × Option CvRect × Option C :=
  let thresh := get_threshold RAW_IMG
  let contours := findContours thresh
  match contours with
  | [] => (thresh, none, none)
  | c :: cs =>
    let largest_contour := pyMaxBy contourArea c cs
    let rect := minAreaRect largest_contour
    let rect : CvRect :=
      if rect.angle ≤ 0 then ⟨rect.center, (rect.size.2, rect.size.1), rect.angle + 90⟩
      else rect
    let y : ℚ := RAW_IMG.h
    let x : ℚ := RAW_IMG.w
    let rect : CvRect :=
      ⟨(rect.center.1 / y, rect.center.2 / x), (rect.size.1 / y, rect.size.2 / x), rect.angle⟩
    (thresh, some rect, some largest_contour)

/-- `RawProcessing.crop(img, rect, include_EQ_ignore=False)` (source lines
401-429).  `boxPoints` stands for `cv2.boxPoints` and `warpPerspective`
for `cv2.getPerspectiveTransform` followed by `cv2.warpPerspective` (both
external); `border_crop`, `ignore_border` and `ignore_neg_border` are the
instance/class parameters read inside the method.  A `None` rectangle
leaves the buffer untouched. -/
def crop {α : Type} (boxPoints : CvRect → Fin 4 → ℚ × ℚ)
    (warpPerspective : Img α → (Fin 4 → ℚ × ℚ) → (Fin 4 → ℚ × ℚ) → ℤ × ℤ → Img α)
    (border_crop : ℚ) (ignore_border : ℚ × ℚ) (ignore_neg_border : Bool)
    (img : Img α) (rect : Option CvRect) (include_EQ_ignore : Bool) : Img α :=
  match rect with
  | none => img
  | some rect0 =>
    let xy : ℚ × ℚ :=
      if img.h > img.w then (border_crop, border_crop * img.w / img.h)
      else (border_crop * img.h / img.w, border_crop)
    let x_crop := xy.1
    let y_crop := xy.2
    let y : ℚ := img.h
    let x : ℚ := img.w
    let rect : CvRect :=
      ⟨(rect0.center.1 * y, rect0.center.2 * x), (rect0.size.1 * y, rect0.size.2 * x), rect0.angle⟩
    let box : Fin 4 → ℤ × ℤ := fun i => (pyInt (boxPoints rect i).1, pyInt (boxPoints rect i).2)
    let box := if !(include_EQ_ignore && ignore_neg_border) then shrink_box box x_crop y_crop else box
    let box := if include_EQ_ignore then shrink_box box ignore_border.1 ignore_border.2 else box
    let width := pyInt (rect.size.2 * (1 - x_crop / 100))
    let height := pyInt (rect.size.1 * (1 - y_crop / 100))
    let src_pts : Fin 4 → ℚ × ℚ := fun i => (((box i).1 : ℚ), ((box i).2 : ℚ))
    let dst_pts : Fin 4 → ℚ × ℚ :=
      ![(0, ((width - 1 : ℤ) : ℚ)), (0, 0), (((height - 1 : ℤ) : ℚ), 0),
        (((height - 1 : ℤ) : ℚ), ((width - 1 : ℤ) : ℚ))]
    let img := warpPerspective img src_pts dst_pts (height, width)
    if rect.angle > 45 then rot90cw img else img

/-- `np.round` / Python `round`: round half to even. -/
def pyRound (q : ℚ) : ℤ :=
  let f := ⌊q⌋
  let r := q - f
  if r < 1 / 2 then f
  else if r > 1 / 2 then f + 1
  else if Even f then f else f + 1

/-- numpy border slice `img[y:-y, x:-x]` (empty when the border swallows
the buffer, as in numpy). -/
def Img.slice (img : Img α) (y x : ℕ) : Img α :=
  ⟨img.h - 2 * y, img.w - 2 * x, fun i j =>
    img.px ⟨y + i.val, by have hi := i.2; omega⟩ ⟨x + j.val, by have hj := j.2; omega⟩⟩

/-- The resolution-scaled dust-area bound of `find_dust` (source lines
346-349): `((x + y) / 2 / 800)² · max_dust_area` for an `h × w` buffer. -/
def find_dust_max_size (h w : ℕ) (max_dust_area : ℚ) : ℚ :=
  let img_size : ℚ := ((w : ℚ) + (h : ℚ)) / 2
  let multiplier := img_size / 800
  multiplier ^ 2 * max_dust_area

/-- The component filter of `find_dust` (source lines 366-368): sort the
contours of the post-morphology threshold image by area and keep exactly
those whose area is strictly below `maxSize`; precisely this list is then
drawn (filled) into the dust mask. -/
def find_dust_kept {C : Type} (contourArea : C → ℚ) (contours : List C)
    (maxSize : ℚ) : List C :=
  let sortedContours := contours.mergeSort (fun a b => decide (contourArea a ≤ contourArea b))
  sortedContours.filter (fun c => decide (contourArea c < maxSize))

/-- The OpenCV primitives `find_dust` calls; all are external library
functions (8-bit grayscale rendering, percentile statistics, inverted
binary threshold, morphology, contour extraction and area, filled contour
rendering). -/
structure DustOracles (α C : Type) where
  to8bitGray : Img α → Img ℚ
  percentile : Img ℚ → ℚ → ℚ
  thresholdInv : Img ℚ → ℚ → Img ℚ
  dilate : Img ℚ → ℕ → ℕ → Img ℚ
  erode : Img ℚ → ℕ → ℕ → Img ℚ
  findContours : Img ℚ → List C
  contourArea : C → ℚ
  drawContoursFilled : Img ℚ → List C → Img ℚ

/-- `RawProcessing.find_dust(img)` (source lines 344-372): dust detection
on the cropped working buffer.  The resolution scaling, the
border-ignoring sample slice, the threshold formula, the kernel sizing
and the area filter are transcribed; the cv2/numpy primitives enter via
`O`. -/
def find_dust {α C : Type} (O : DustOracles α C) (ignore_border : ℚ × ℚ)
    (dust_threshold max_dust_area : ℚ) (dust_iter : ℕ) (img : Img α) : Img ℚ :=
  let max_dust_size := find_dust_max_size img.h img.w max_dust_area
  let multiplier : ℚ := (((img.w : ℚ) + (img.h : ℚ)) / 2) / 800
  let kernel_size : ℕ := max ((pyRound multiplier).toNat * 2 + 1) 1
  let bx : ℤ := pyInt (ignore_border.1 / 100 * (img.w : ℚ))
  let bY : ℤ := pyInt (ignore_border.2 / 100 * (img.h : ℚ))
  let img8gray := O.to8bitGray img
  let sampled : Img ℚ := if bx * bY = 0 then img8gray else img8gray.slice bY.toNat bx.toNat
  let minimum := O.percentile sampled (1 / 2)
  let maximum := O.percentile sampled (199 / 2)
  let threshold := (maximum - minimum) * dust_threshold / 100 + minimum
  let thresh := O.thresholdInv img8gray threshold
  let thresh_img := O.dilate thresh kernel_size dust_iter
  let thresh_img := O.erode thresh_img kernel_size dust_iter
  let contours := O.findContours thresh_img
  let smallest := find_dust_kept O.contourArea contours max_dust_size
  let dust_mask := O.drawContoursFilled (img8gray.mapPix (fun _ => 0)) smallest
  O.dilate dust_mask kernel_size 1

/-- A 3-channel sample in the BGR channel order of the pipeline
(channel 0 = blue, 1 = green, 2 = red), exact real arithmetic standing
for the numpy float arrays. -/
abbrev V3 : Type := Fin 3 → ℝ

/-- The per-photo processing parameters read by the tonal stages
(`self.black_point`, …, `self.film_type`, `self.base_detect`,
`self.base_rgb` in RGB order, `self.pick_wb`). -/
structure Params where
  black_point : ℚ
  white_point : ℚ
  gamma : ℚ
  shadows : ℚ
  highlights : ℚ
  temp : ℚ
  tint : ℚ
  sat : ℚ
  film_type : ℕ
  base_detect : Bool
  base_rgb : ℚ × ℚ × ℚ
  pick_wb : Bool

/-- `np.clip(v, 0, 1)`. -/
noncomputable def clip01 (v : ℝ) : ℝ := min (max v 0) 1

/-- `matplotlib.colors.Normalize(0, 65535, True)` applied to a sample. -/
noncomputable def normalize16 (v : ℝ) : ℝ := clip01 ((v - 0) / (65535 - 0))

/-- The black point of `hist_EQ` (source lines 472-478): the sampled film
base colour (reversed to BGR, scaled to 16 bit, inverted for colour
negatives) when base detection is on for film types 1/2, otherwise the
low percentile of the sample; `pct img q` stands for
`np.percentile(img, q, (0,1))`. -/
noncomputable def histEQ_black_point (pct : Img V3 → ℚ → V3) (bp_pct : ℚ)
    (p : Params) (sample_img : Img V3) : V3 :=
  if p.base_detect ∧ (p.film_type = 1 ∨ p.film_type = 2) then
    if p.film_type = 1 then
      ![65535 - (p.base_rgb.2.2 : ℝ) * 256, 65535 - (p.base_rgb.2.1 : ℝ) * 256,
        65535 - (p.base_rgb.1 : ℝ) * 256]
    else
      ![(p.base_rgb.2.2 : ℝ) * 256, (p.base_rgb.2.1 : ℝ) * 256, (p.base_rgb.1 : ℝ) * 256]
  else pct sample_img bp_pct

/-- The per-channel black offsets of `hist_EQ` (source line 479). -/
noncomputable def histEQ_black_offsets (black_point : V3) (black_point_slider : ℚ) : V3 :=
  fun c => (black_point_slider : ℝ) / 100 * 0.2 * 65535 - black_point c

/-- The black-shifted statistics sample of `hist_EQ` (source line 484). -/
noncomputable def histEQ_shifted_sample (pct : Img V3 → ℚ → V3) (cf : Img V3 → Img V3)
    (bp_pct : ℚ) (p : Params) (img : Img V3) : Img V3 :=
  let sample_img := cf img
  let black_offsets := histEQ_black_offsets (histEQ_black_point pct bp_pct p sample_img) p.black_point
  sample_img.mapPix (fun v c => v c + black_offsets c)

/-- The per-channel high-percentile white point of `hist_EQ` (source line
487), taken over the black-shifted sample. -/
noncomputable def histEQ_white_point (pct : Img V3 → ℚ → V3) (cf : Img V3 → Img V3)
    (bp_pct wp_pct : ℚ) (p : Params) (img : Img V3) : V3 :=
  pct (histEQ_shifted_sample pct cf bp_pct p img) wp_pct

/-- The guarded white multiplier of `hist_EQ` (source line 488):
`np.divide(..., out=ones, where=white_point>0)` computes the quotient
only where the white point is positive and leaves the prefilled 1
elsewhere. -/
noncomputable def histEQ_white_multiplier (white_point_slider : ℚ) (wp : ℝ) : ℝ :=
  if wp > 0 then (65535 + (white_point_slider : ℝ) / 100 * 0.2 * 65535) / wp else 1

/-- `RawProcessing.hist_EQ(img)` (source lines 466-490).  `cf` stands for
`self.crop(img, self.rect, include_EQ_ignore=True)` (the ignore-adjusted
sample crop) and `pct` for `np.percentile`; `bp_pct`/`wp_pct` are the
class parameters `black_point_percentile`/`white_point_percentile`. -/
noncomputable def hist_EQ (pct : Img V3 → ℚ → V3) (cf : Img V3 → Img V3)
    (bp_pct wp_pct : ℚ) (p : Params) (img0 : Img V3) : Img V3 :=
  let sample_img := cf img0
  let black_point := histEQ_black_point pct bp_pct p sample_img
  let black_offsets := histEQ_black_offsets black_point p.black_point
  let img := img0.mapPix (fun v c => v c + black_offsets c)
  let white_point := histEQ_white_point pct cf bp_pct wp_pct p img0
  let white_multipliers : V3 := fun c => histEQ_white_multiplier p.white_point (white_point c)
  img.mapPix (fun v c => v c * white_multipliers c)

/-- `astype(int)` on a float: truncation toward zero. -/
noncomputable def pyIntR (x : ℝ) : ℤ := if 0 ≤ x then ⌊x⌋ else ⌈x⌉

/-- `RawProcessing.wb_adjust(img)` (source lines 493-516): additive white
balance.  `picked` stands for the `cv2.mean` BGR triple of the
picker-disc sample (external); when `pick_wb` is armed the method derives
temp/tint from it exactly as in lines 510-513 and uses those, else the
stored sliders. -/
noncomputable def wb_adjust (picked : V3) (p : Params) (img : Img V3) : Img V3 :=
  let multiplier : ℝ := 200
  let tt : ℝ × ℝ :=
    if p.pick_wb then
      let G_offset := (picked 0 + picked 2) / 2 - picked 1
      let RB_offset := picked 0 - (picked 0 + picked 2) / 2
      (max (min (RB_offset / multiplier) 100) (-100),
       max (min (G_offset / multiplier) 100) (-100))
    else ((p.temp : ℝ), (p.tint : ℝ))
  img.mapPix (fun v =>
    ![v 0 + (-tt.1 * multiplier), v 1 + (-tt.2 * multiplier), v 2 + tt.1 * multiplier])

/-- `RawProcessing.wb_adjust_coeff(img)` (source lines 518-539): the
shipped multiplicative white balance; coefficients per BGR channel, a
temp/tint solve from the picked mean when `pick_wb` is armed
(lines 535-536). -/
noncomputable def wb_adjust_coeff (picked : V3) (p : Params) (img : Img V3) : Img V3 :=
  let multiplier : ℝ := 200
  let tt : ℝ × ℝ :=
    if p.pick_wb then
      let B := picked 0
      let G := picked 1
      let R := picked 2
      let tint := max (min ((G / B + G / R - 2) / ((B * (G + R) + R * G) / (B * R)) * multiplier) 100) (-100)
      let temp := max (min (((2 * G - (2 * G + R) * tint / multiplier) / 2 / R - 1) * multiplier) 100) (-100)
      (temp, tint)
    else ((p.temp : ℝ), (p.tint : ℝ))
  img.mapPix (fun v =>
    ![v 0 * (1 - tt.1 / multiplier + tt.2 / multiplier / 2),
      v 1 * (1 - tt.2 / multiplier),
      v 2 * (1 + tt.1 / multiplier + tt.2 / multiplier / 2)])

/-- `RawProcessing.wb_adjust_gamma(img)` (source lines 541-565):
gamma-based white balance on the normalized buffer, with the log-solve of
lines 558-560 when `pick_wb` is armed. -/
noncomputable def wb_adjust_gamma (picked : V3) (p : Params) (img : Img V3) : Img V3 :=
  let img := img.mapPix (fun v c => v c / 65535)
  let tt : ℝ × ℝ :=
    if p.pick_wb then
      let target := (picked 0 + picked 2) / 2
      (100 * Real.logb 2 (Real.log target / Real.log (picked 0)),
       -100 * Real.logb 2 (Real.log target / Real.log (picked 1)))
    else ((p.temp : ℝ), (p.tint : ℝ))
  let img := img.mapPix (fun v =>
    ![v 0 ^ ((2 : ℝ) ^ (tt.1 / 100)), v 1 ^ ((2 : ℝ) ^ (tt.2 / 100)),
      v 2 ^ ((2 : ℝ) ^ (-tt.1 / 100))])
  img.mapPix (fun v c => v c * 65535)

/-- The per-sample exposure curve of `RawProcessing.exposure` (source
lines 567-585): normalize to [0,1] (clipping), power-law gamma with
exponent `2^(−gamma/100)`, the shadow-lift and highlight-compression
terms with their exact coefficients, then denormalize. -/
noncomputable def exposureVal (gamma shadows highlights : ℚ) (v : ℝ) : ℝ :=
  let x := normalize16 v
  let x := x ^ ((2 : ℝ) ^ (-(gamma : ℝ) / 100))
  let shadows_coefficient := 4.15e-5 * (shadows : ℝ) ^ 2 + 0.02185 * (shadows : ℝ)
  let x := x + shadows_coefficient * (min (x - 0.75) 0) ^ 2 * x
  let highlights_coefficient := -4.15e-5 * (highlights : ℝ) ^ 2 + 0.02185 * (highlights : ℝ)
  let x := x + highlights_coefficient * (max (x - 0.25) 0) ^ 2 * (1 - x)
  x * 65535

/-- `RawProcessing.exposure(img)`: the exposure curve applied to every
channel of every pixel. -/
noncomputable def exposure (gamma shadows highlights : ℚ) (img : Img V3) : Img V3 :=
  img.mapPix (fun v c => exposureVal gamma shadows highlights (v c))

/-- `matplotlib.colors.rgb_to_hsv` on one pixel; ties between equal
maximal channels resolve to the last mask written (blue, then green,
then red), hue is `(h/6) mod 1`. -/
noncomputable def rgb_to_hsv (r g b : ℝ) : ℝ × ℝ × ℝ :=
  let mx := max r (max g b)
  let mn := min r (min g b)
  let delta := mx - mn
  let s := if mx > 0 then delta / mx else 0
  let hraw :=
    if b = mx ∧ delta > 0 then 4 + (r - g) / delta
    else if g = mx ∧ delta > 0 then 2 + (b - r) / delta
    else if r = mx ∧ delta > 0 then (g - b) / delta
    else 0
  (Int.fract (hraw / 6), s, mx)

/-- `matplotlib.colors.hsv_to_rgb` on one pixel. -/
noncomputable def hsv_to_rgb (h s v : ℝ) : ℝ × ℝ × ℝ :=
  let h6 := h * 6
  let i : ℤ := pyIntR h6
  let f := h6 - (i : ℝ)
  let p := v * (1 - s)
  let q := v * (1 - s * f)
  let t := v * (1 - s * (1 - f))
  let rgb :=
    if i % 6 = 0 then (v, t, p)
    else if i = 1 then (q, v, p)
    else if i = 2 then (p, v, t)
    else if i = 3 then (p, q, v)
    else if i = 4 then (t, p, q)
    else if i = 5 then (v, p, q)
    else (0, 0, 0)
  if s = 0 then (v, v, v) else rgb

/-- The per-pixel body of `RawProcessing.sat_adjust` (source lines
591-598): flip BGR→RGB, normalize, scale the HSV saturation channel by
`sat/100` clipped to [0,1], convert back and restore the range. -/
noncomputable def sat_adjustVal (sat : ℚ) (v : V3) : V3 :=
  let r := normalize16 (v 2)
  let g := normalize16 (v 1)
  let b := normalize16 (v 0)
  let hsv := rgb_to_hsv r g b
  let s2 := min (max (hsv.2.1 * ((sat : ℝ) / 100)) 0) 1
  let rgb := hsv_to_rgb hsv.1 s2 hsv.2.2
  ![rgb.2.2 * 65535, rgb.2.1 * 65535, rgb.1 * 65535]

/-- `RawProcessing.sat_adjust(img)` (source lines 587-598), including the
fast path that returns the buffer untouched at the neutral slider
`sat == 100`. -/
noncomputable def sat_adjust (sat : ℚ) (img : Img V3) : Img V3 :=
  if sat = 100 then img else img.mapPix (sat_adjustVal sat)

/-- `img.clip(0, 65535).astype(np.uint16)`: the terminal clip of every
film-type pipeline. -/
noncomputable def clipu16 (img : Img V3) : Img (Fin 3 → ℤ) :=
  img.mapPix (fun v c => ⌊min (max (v c) 0) (65535 : ℝ)⌋)

/-- `65535 - img`: inversion of a negative into a positive. -/
noncomputable def invert16 (img : Img V3) : Img V3 :=
  img.mapPix (fun v c => 65535 - v c)

/-- `RawProcessing.slide_processing(img)` (source lines 331-338):
`hist_EQ`, then entry 1 of the `wb_mode` list (the coefficient white
balance), then `exposure`, then `sat_adjust`, then the clip to uint16. -/
noncomputable def slide_processing (pct : Img V3 → ℚ → V3) (cf : Img V3 → Img V3)
    (picked : V3) (bp_pct wp_pct : ℚ) (p : Params) (img : Img V3) : Img (Fin 3 → ℤ) :=
  let img := hist_EQ pct cf bp_pct wp_pct p img
  let wb_mode := [wb_adjust picked p, wb_adjust_coeff picked p, wb_adjust_gamma picked p]
  let img := (wb_mode.get ⟨1, Nat.lt_of_sub_eq_succ rfl⟩) img
  let img := exposure p.gamma p.shadows p.highlights img
  let img := sat_adjust p.sat img
  clipu16 img

/-- `RawProcessing.colour_negative_processing(img)` (source lines
326-329): invert, then exactly `slide_processing`. -/
noncomputable def colour_negative_processing (pct : Img V3 → ℚ → V3) (cf : Img V3 → Img V3)
    (picked : V3) (bp_pct wp_pct : ℚ) (p : Params) (img : Img V3) : Img (Fin 3 → ℤ) :=
  let img := invert16 img
  slide_processing pct cf picked bp_pct wp_pct p img

/-- Modelled from the spec (§4.9): the SLIDE pipeline as the spec words
it — ToneEqualizer → multiplicative WhiteBalancer → ExposureCurve →
SaturationAdjuster → clip — for comparison with the
`slide_processing` of the source. -/
noncomputable def slideSpecChain (pct : Img V3 → ℚ → V3) (cf : Img V3 → Img V3)
    (picked : V3) (bp_pct wp_pct : ℚ) (p : Params) (img : Img V3) : Img (Fin 3 → ℤ) :=
  clipu16 (sat_adjust p.sat
    (exposure p.gamma p.shadows p.highlights
      (wb_adjust_coeff picked p (hist_EQ pct cf bp_pct wp_pct p img))))

/-- The mutable state of one `RawProcessing` photo object that the
processing entry points read and write.  `β` is the type of numpy pixel
buffers (images, threshold masks, contours); a missing attribute
(`hasattr` false) is `none`.  `rect` can also be the Python value `None`
(no frame detected), which the source stores and `crop` accepts. -/
structure PhotoState (β : Type) where
  FileReadError : Bool
  reject : Bool
  processed : Bool
  proxy : Bool
  active_processes : ℤ
  RAW_IMG : Option β
  proxy_RAW_IMG : Option β
  thresh : Option β
  rect : Option CvRect
  largest_contour : Option β
  IMG : Option β
  dust_mask : Option β
  film_type : ℕ
  remove_dust : Bool
  base_rgb : ℚ × ℚ × ℚ

/-- `RawProcessing.load` (source lines 94-138), abstracted over the I/O
outcome: `readResult` is the decoded buffer when either the rawpy or the
cv2 fallback read succeeds (including the border trim / 16-bit scaling
done there), `none` when both fail, in which case the method sets
`reject` and `FileReadError` and returns; on success `FileReadError` is
cleared and `RAW_IMG` stored. -/
def load (readResult : Option β) (s : PhotoState β) : PhotoState β :=
  match readResult with
  | none => { s with reject := true, FileReadError := true }
  | some raw => { s with RAW_IMG := some raw, FileReadError := false }

/-- The methods `process` invokes on buffers, as opaque buffer
transformers: the geometry estimation (`find_optimal_crop`), resizing,
the shape read, dust detection, the perspective crop and the three
film-type pipelines.  Their internals are embedded separately at pixel
level; at the state-machine level only their dataflow matters. -/
structure ProcOracles (β : Type) where
  find_optimal_crop : β → β × Option CvRect × Option β
  shape : β → ℕ × ℕ
  resize : β → ℤ → ℤ → β
  find_dust : β → β
  crop : β → Option CvRect → β
  bw_negative_processing : β → β
  colour_negative_processing : β → β
  slide_processing : β → β

/-- Source lines 270-271: load the RAW file first if it has not been. -/
def process_entry (readResult : Option β) (s0 : PhotoState β) : PhotoState β :=
  if s0.RAW_IMG.isNone then load readResult s0 else s0

/-- Source line 274: `self.active_processes += 1`. -/
def process_s2 (readResult : Option β) (s0 : PhotoState β) : PhotoState β :=
  let s := process_entry readResult s0
  { s with active_processes := s.active_processes + 1 }

/-- Source lines 276-286: recompute threshold/rectangle/contour unless
`skip_crop` is set and a threshold exists, and derive the proxy when the
image exceeds `max_proxy_size`.  (The `RAW_IMG = none` branch is
unreachable from `process`, which always loads first.) -/
def process_cropPhase (O : ProcOracles β) (max_proxy_size : ℚ) (skip_crop : Bool)
    (s : PhotoState β) : PhotoState β :=
  if !skip_crop || s.thresh.isNone then
    match s.RAW_IMG with
    | none => s
    | some raw =>
      let focr := O.find_optimal_crop raw
      let s := { s with thresh := some focr.1, rect := focr.2.1, largest_contour := focr.2.2 }
      let shape := O.shape raw
      let img_size := shape.1 + shape.2
      if (img_size : ℚ) > max_proxy_size then
        let scale_factor := max_proxy_size / (img_size : ℚ)
        let x := pyInt ((shape.2 : ℚ) * scale_factor)
        let yNew := pyInt ((shape.1 : ℚ) * scale_factor)
        { s with proxy_RAW_IMG := some (O.resize raw x yNew), proxy := true }
      else s
  else s

/-- The state after the crop phase. -/
def process_s3 (O : ProcOracles β) (max_proxy_size : ℚ) (skip_crop : Bool)
    (readResult : Option β) (s0 : PhotoState β) : PhotoState β :=
  process_cropPhase O max_proxy_size skip_crop (process_s2 readResult s0)

/-- Source line 309: `self.active_processes -= 1`, with `d` the net
change other concurrently running invocations applied to the counter in
the meantime. -/
def process_s4 (O : ProcOracles β) (max_proxy_size : ℚ) (skip_crop : Bool)
    (readResult : Option β) (d : ℤ) (s0 : PhotoState β) : PhotoState β :=
  let s := process_s3 O max_proxy_size skip_crop readResult s0
  { s with active_processes := s.active_processes + d - 1 }

/-- Source lines 289-307: pick the working buffer (proxy for previews,
full RAW for `full_res`), compute the dust mask of the cropped working
buffer, dispatch on `film_type` (0 B/W negative, 1 colour negative,
2 slide, 3 crop-only; any other value falls through unchanged) and crop.
Returns `(final image, dust mask)`; `none` models the `AttributeError`
raised when the proxy flag is set but the proxy buffer is absent. -/
def process_result (O : ProcOracles β) (full_res : Bool) (s : PhotoState β) :
    Option (β × β) :=
  match s.RAW_IMG with
  | none => none
  | some raw =>
    let working := if s.proxy && !full_res then s.proxy_RAW_IMG else some raw
    working.map (fun img =>
      let dust_mask := O.find_dust (O.crop img s.rect)
      let img2 :=
        match s.film_type with
        | 0 => O.bw_negative_processing img
        | 1 => O.colour_negative_processing img
        | 2 => O.slide_processing img
        | 3 => img
        | _ => img
      (O.crop img2 s.rect, dust_mask))

/-- `RawProcessing.process(full_res, recent_only, skip_crop)` (source
lines 265-316): load if needed, refuse on `FileReadError`, bump the
active counter, recompute crop/proxy, run the film-type pipeline, drop
the counter, and either discard the result (when `recent_only` is set
and newer invocations are still active) or commit `IMG`, `dust_mask` and
`processed` at once. -/
def process (O : ProcOracles β) (readResult : Option β) (d : ℤ)
    (max_proxy_size : ℚ) (s0 : PhotoState β)
    (full_res recent_only skip_crop : Bool) : Option (PhotoState β) :=
  let s := process_entry readResult s0
  if s.FileReadError then some s
  else
    match process_result O full_res (process_s3 O max_proxy_size skip_crop readResult s0) with
    | none => none
    | some res =>
      let s4 := process_s4 O max_proxy_size skip_crop readResult d s0
      if recent_only && decide (0 < s4.active_processes) then some s4
      else some { s4 with IMG := some res.1, dust_mask := some res.2, processed := true }

/-- Every intermediate state a `process` run writes before its final
commit-or-discard step. -/
def process_midStates (O : ProcOracles β) (readResult : Option β) (d : ℤ)
    (max_proxy_size : ℚ) (s0 : PhotoState β) (skip_crop : Bool) :
    List (PhotoState β) :=
  [process_entry readResult s0, process_s2 readResult s0,
   process_s3 O max_proxy_size skip_crop readResult s0,
   process_s4 O max_proxy_size skip_crop readResult d s0]

/-- The `output` argument of `get_IMG`. -/
inductive GetOutput
  | RAW
  | Threshold
  | Contours
  | Histogram
  | Preview

/-- The rendering helpers `get_IMG` calls (rotation to display
orientation, the contour/zebra overlay, histogram drawing, dust
inpainting, decorative framing), opaque at this level. -/
structure GetImgOracles (β : Type) where
  rotateImg : β → β
  contoursRender : β → β → Option CvRect → β
  histRender : β → β
  fill_dust : β → β → β
  add_frame : β → β

/-- `RawProcessing.get_IMG(output)` (source lines 140-206): returns
nothing when the file could not be read (lines 142-143), otherwise
renders the requested buffer.  The outer `Option` is normal termination
(`none` models the `AttributeError` of touching a buffer attribute that
was never created); the inner `Option` is the Python return value
(`None` vs an image). -/
def get_IMG (O : GetImgOracles β) (s : PhotoState β) (output : GetOutput) :
    Option (Option β) :=
  if s.FileReadError then some none
  else
    match output with
    | .RAW =>
      match s.RAW_IMG with
      | none => none
      | some r => some (some (O.rotateImg r))
    | .Threshold =>
      match s.thresh with
      | none => none
      | some t => some (some (O.rotateImg t))
    | .Contours =>
      match s.thresh, s.RAW_IMG with
      | some t, some r => some (some (O.rotateImg (O.contoursRender t r s.rect)))
      | _, _ => none
    | .Histogram =>
      match s.IMG with
      | none => none
      | some i => some (some (O.histRender i))
    | .Preview =>
      match s.IMG with
      | none => none
      | some img =>
        if s.remove_dust then
          match s.dust_mask with
          | none => none
          | some m => some (some (O.rotateImg (O.add_frame (O.fill_dust img m))))
        else some (some (O.rotateImg (O.add_frame img)))

/-- `cv2.mean` of `RAW_IMG` under the rotated picker-disc mask that
`get_base_colour` builds (source lines 714-723), external. -/
structure BaseColourOracles (β : Type) where
  meanBGR : β → ℚ → ℚ → ℚ × ℚ × ℚ

/-- `RawProcessing.get_base_colour(x, y)` (source lines 711-724): builds
the picker mask from `self.RAW_IMG` (raising — modelled as `none` — when
that buffer is absent; the method performs no `FileReadError` check),
averages the masked pixels and stores the rounded reversed mean as
`base_rgb`. -/
def get_base_colour (O : BaseColourOracles β) (s : PhotoState β) (x y : ℚ) :
    Option (PhotoState β) :=
  match s.RAW_IMG with
  | none => none
  | some raw =>
    let m := O.meanBGR raw x y
    some { s with base_rgb := ((pyRound m.2.2 : ℤ), ((pyRound m.2.1 : ℤ) : ℚ), ((pyRound m.1 : ℤ) : ℚ)) }

theorem rot90ccw_rot90cw (img : Img α) : rot90ccw (rot90cw img) = img := by
  cases img with
  | mk h w px =>
    simp only [rot90cw, rot90ccw, Img.mk.injEq, heq_eq_eq]
    refine ⟨trivial, trivial, ?_⟩
    funext i j
    rw [Fin.rev_rev]

theorem rot90cw_rot90ccw (img : Img α) : rot90cw (rot90ccw img) = img := by
  cases img with
  | mk h w px =>
    simp only [rot90cw, rot90ccw, Img.mk.injEq, heq_eq_eq]
    refine ⟨trivial, trivial, ?_⟩
    funext i j
    rw [Fin.rev_rev]

theorem rot180_rot180 (img : Img α) : rot180 (rot180 img) = img := by
  cases img with
  | mk h w px =>
    simp only [rot180, Img.mk.injEq, heq_eq_eq]
    refine ⟨trivial, trivial, ?_⟩
    funext i j
    rw [Fin.rev_rev, Fin.rev_rev]

theorem flipH_flipH (img : Img α) : flipH (flipH img) = img := by
  cases img with
  | mk h w px =>
    simp only [flipH, Img.mk.injEq, heq_eq_eq]
    refine ⟨trivial, trivial, ?_⟩
    funext i j
    rw [Fin.rev_rev]

/-- C5: Rotation round trip: for every image buffer, every rotation state
(taken modulo 4) and both flip settings, `rotate` in forward mode followed
by `rotate` with `undo=True` returns a buffer exactly equal to the input. -/
theorem rotate_roundtrip (α : Type) (img : Img α) (rotation : ℕ) (flip : Bool) :
    rotate rotation flip true (rotate rotation flip false img) = img := by
  have hr : rotation % 4 = 0 ∨ rotation % 4 = 1 ∨ rotation % 4 = 2 ∨ rotation % 4 = 3 := by
    omega
  rcases hr with h | h | h | h <;> cases flip <;>
    simp [rotate, h, flipH_flipH, rot90ccw_rot90cw, rot90cw_rot90ccw, rot180_rot180]

/-- C1 counterexample: a detected frame whose `cv2.minAreaRect` comes back
axis-aligned with raw angle exactly 0 (the case named by the comment on
line 397 names) is canonicalized to angle 90, which is not in the claimed
interval (−45, 45]. -/
theorem find_optimal_crop_angle_counterexample :
    ((find_optimal_crop (fun _ : Img ℚ => ()) (fun _ : Unit => [()])
        (fun _ : Unit => (0 : ℚ))
        (fun _ : Unit => (⟨(1/2, 1/2), (2, 4), 0⟩ : CvRect))
        ⟨1, 1, fun _ _ => (0 : ℚ)⟩).2.1).map CvRect.angle = some 90 ∧
    ¬((-45 : ℚ) < 90 ∧ (90 : ℚ) ≤ 45) := by
  constructor
  · norm_num [find_optimal_crop, pyMaxBy]
  · norm_num

/-- C1 (amended): after the canonicalization step that swaps width/height
and adds 90° whenever the raw angle is ≤ 0, every rectangle
`find_optimal_crop` emits has its angle in [0°, 90°] (given that the raw
`cv2.minAreaRect` angle lies in [−90°, 90°], which covers every OpenCV
convention); the claimed interval (−45°, 45°] does not hold — `crop`
compensates for angles above 45° with an extra 90° rotation instead. -/
theorem find_optimal_crop_angle_range (α T C : Type) (get_threshold : Img α → T)
    (findContours : T → List C) (contourArea : C → ℚ) (minAreaRect : C → CvRect)
    (RAW_IMG : Img α) (r : CvRect)
    (hbound : ∀ c, -90 ≤ (minAreaRect c).angle ∧ (minAreaRect c).angle ≤ 90)
    (hr : (find_optimal_crop get_threshold findContours contourArea minAreaRect
            RAW_IMG).2.1 = some r) :
    0 ≤ r.angle ∧ r.angle ≤ 90 := by
  simp only [find_optimal_crop] at hr
  cases hc : findContours (get_threshold RAW_IMG) with
  | nil =>
    rw [hc] at hr
    simp at hr
  | cons c cs =>
    rw [hc] at hr
    obtain ⟨hlo, hhi⟩ := hbound (pyMaxBy contourArea c cs)
    by_cases hθ : (minAreaRect (pyMaxBy contourArea c cs)).angle ≤ 0
    · simp only [hθ, if_true, Option.some.injEq] at hr
      rw [← hr]
      constructor <;> simp <;> linarith
    · simp only [hθ, if_false, Option.some.injEq] at hr
      rw [← hr]
      constructor <;> simp <;> linarith

/-- C1 amended-claim witness at a concrete input: one contour with raw
minAreaRect angle 10° yields a canonical angle in [0°, 90°]. -/
theorem find_optimal_crop_angle_range_witness :
    0 ≤ (CvRect.mk (1/2, 1/2) (2, 4) 10).angle ∧
      (CvRect.mk (1/2, 1/2) (2, 4) 10).angle ≤ 90 :=
  find_optimal_crop_angle_range ℚ Unit Unit (fun _ => ()) (fun _ => [()])
    (fun _ => 0) (fun _ => ⟨(1/2, 1/2), (2, 4), 10⟩) ⟨1, 1, fun _ _ => 0⟩
    ⟨(1/2, 1/2), (2, 4), 10⟩
    (by intro c; constructor <;> norm_num)
    (by norm_num [find_optimal_crop, pyMaxBy])

/-- C6: an empty contour list makes `find_optimal_crop` return the
threshold image together with a `None` rectangle and `None` contour
(no exception), and `crop` applied with a `None` rectangle returns the
original buffer unchanged — the run degrades to an identity crop. -/
theorem no_contour_identity_crop :
    (∀ (α T C : Type) (get_threshold : Img α → T) (findContours : T → List C)
       (contourArea : C → ℚ) (minAreaRect : C → CvRect) (RAW_IMG : Img α),
       findContours (get_threshold RAW_IMG) = [] →
       find_optimal_crop get_threshold findContours contourArea minAreaRect RAW_IMG =
         (get_threshold RAW_IMG, none, none)) ∧
    (∀ (α : Type) (boxPoints : CvRect → Fin 4 → ℚ × ℚ)
       (warpPerspective : Img α → (Fin 4 → ℚ × ℚ) → (Fin 4 → ℚ × ℚ) → ℤ × ℤ → Img α)
       (border_crop : ℚ) (ignore_border : ℚ × ℚ) (ignore_neg_border : Bool)
       (img : Img α) (include_EQ_ignore : Bool),
       crop boxPoints warpPerspective border_crop ignore_border ignore_neg_border
         img none include_EQ_ignore = img) := by
  constructor
  · intro α T C gt fc ca mar raw hempty
    simp only [find_optimal_crop]
    rw [hempty]
  · intro α bp wp bc ib inb img iEQ
    rfl

/-- C6 witness at concrete inputs: a threshold with no contours and a
`None`-rectangle crop on a 1×1 buffer. -/
theorem no_contour_identity_crop_witness :
    find_optimal_crop (fun _ : Img ℚ => ()) (fun _ : Unit => ([] : List Unit))
      (fun _ => 0) (fun _ => ⟨(0, 0), (1, 1), 0⟩) ⟨1, 1, fun _ _ => 0⟩ =
      ((), none, none) ∧
    crop (fun _ _ => (0, 0)) (fun i _ _ _ => i) 0 (1, 1) true
      (⟨1, 1, fun _ _ => (0 : ℚ)⟩ : Img ℚ) none false =
      (⟨1, 1, fun _ _ => (0 : ℚ)⟩ : Img ℚ) :=
  ⟨no_contour_identity_crop.1 ℚ Unit Unit _ _ _ _ _ rfl,
   no_contour_identity_crop.2 ℚ _ _ _ _ _ _ _⟩

/-- C8: membership in the dust-mask component list: a contour of the
post-morphology threshold image is drawn into the dust mask exactly when
its area is strictly below the resolution-scaled bound
`((w+h)/2/800)² · max_dust_area`; every component at or above the bound
is excluded. -/
theorem find_dust_kept_mem (C : Type) (contourArea : C → ℚ) (contours : List C)
    (h w : ℕ) (max_dust_area : ℚ) (c : C) :
    c ∈ find_dust_kept contourArea contours (find_dust_max_size h w max_dust_area) ↔
      c ∈ contours ∧ contourArea c < find_dust_max_size h w max_dust_area := by
  unfold find_dust_kept
  simp only [List.mem_filter, decide_eq_true_eq]
  rw [(List.mergeSort_perm contours _).mem_iff]

theorem exposureVal_zero_id (v : ℝ) (h0 : 0 ≤ v) (h1 : v ≤ 65535) :
    exposureVal 0 0 0 v = v := by
  have h2 : (0 : ℝ) ≤ (v - 0) / (65535 - 0) := by
    apply div_nonneg <;> linarith
  have h3 : (v - 0) / (65535 - 0) ≤ 1 := by
    rw [div_le_one (by norm_num)]
    linarith
  have hexp : -(((0 : ℚ) : ℝ)) / 100 = (0 : ℝ) := by norm_num
  simp only [exposureVal, normalize16, clip01, hexp, Real.rpow_zero, Real.rpow_one,
    max_eq_left h2, min_eq_left h3]
  push_cast
  ring_nf

/-- C4: exposure identity: on every buffer with values in [0, 65535],
`exposure` with gamma = 0, shadows = 0 and highlights = 0 is the identity
transform — the gamma exponent `2^(−0/100)` is 1 and both rolloff
coefficients vanish, so the normalize/denormalize round trip returns the
input exactly. -/
theorem exposure_zero_identity (img : Img V3)
    (hb : ∀ i j c, 0 ≤ img.px i j c ∧ img.px i j c ≤ 65535) :
    exposure 0 0 0 img = img := by
  cases img with
  | mk h w px =>
    simp only [exposure, Img.mapPix, Img.mk.injEq, heq_eq_eq]
    refine ⟨trivial, trivial, ?_⟩
    funext i j c
    exact exposureVal_zero_id _ (hb i j c).1 (hb i j c).2

/-- C4 witness: the identity on a concrete 1×1 buffer of value 100. -/
theorem exposure_zero_identity_witness :
    exposure 0 0 0 ⟨1, 1, fun _ _ _ => (100 : ℝ)⟩ = ⟨1, 1, fun _ _ _ => (100 : ℝ)⟩ :=
  exposure_zero_identity _ (by intro i j c; norm_num)

/-- C3: white-point division guard in `hist_EQ`: for every channel whose
computed high-percentile white point is ≤ 0, the white multiplier falls
back to the safe default 1 (the guarded `np.divide` never divides by a
zero or negative white point), so that channel of the output is exactly
the black-shifted input; `hist_EQ` is a total function for every buffer
and parameter setting. -/
theorem histEQ_white_guard (pct : Img V3 → ℚ → V3) (cf : Img V3 → Img V3)
    (bp_pct wp_pct : ℚ) (p : Params) (img : Img V3) (c : Fin 3)
    (hwp : histEQ_white_point pct cf bp_pct wp_pct p img c ≤ 0) :
    histEQ_white_multiplier p.white_point
        (histEQ_white_point pct cf bp_pct wp_pct p img c) = 1 ∧
    ∀ i j, (hist_EQ pct cf bp_pct wp_pct p img).px i j c =
      img.px i j c +
        histEQ_black_offsets (histEQ_black_point pct bp_pct p (cf img)) p.black_point c := by
  have hm : histEQ_white_multiplier p.white_point
      (histEQ_white_point pct cf bp_pct wp_pct p img c) = 1 := by
    unfold histEQ_white_multiplier
    rw [if_neg (not_lt.mpr hwp)]
  refine ⟨hm, ?_⟩
  intro i j
  simp only [hist_EQ, Img.mapPix]
  rw [hm, mul_one]

/-- C3 witness: a percentile oracle that reports white point 0 on a
concrete 1×1 buffer; the multiplier is 1 and the channel is only
black-shifted. -/
theorem histEQ_white_guard_witness :
    histEQ_white_multiplier (Params.mk 0 0 0 0 0 0 0 100 2 false (0, 0, 0) false).white_point
        (histEQ_white_point (fun _ _ _ => 0) id 1 99
          (Params.mk 0 0 0 0 0 0 0 100 2 false (0, 0, 0) false)
          ⟨1, 1, fun _ _ _ => (5 : ℝ)⟩ 0) = 1 ∧
    ∀ i j, (hist_EQ (fun _ _ _ => 0) id 1 99
        (Params.mk 0 0 0 0 0 0 0 100 2 false (0, 0, 0) false)
        ⟨1, 1, fun _ _ _ => (5 : ℝ)⟩).px i j 0 =
      (⟨1, 1, fun _ _ _ => (5 : ℝ)⟩ : Img V3).px i j 0 +
        histEQ_black_offsets
          (histEQ_black_point (fun _ _ _ => 0) 1
            (Params.mk 0 0 0 0 0 0 0 100 2 false (0, 0, 0) false)
            (id ⟨1, 1, fun _ _ _ => (5 : ℝ)⟩))
          (Params.mk 0 0 0 0 0 0 0 100 2 false (0, 0, 0) false).black_point 0 :=
  histEQ_white_guard (fun _ _ _ => 0) id 1 99
    (Params.mk 0 0 0 0 0 0 0 100 2 false (0, 0, 0) false)
    ⟨1, 1, fun _ _ _ => (5 : ℝ)⟩ 0
    (by norm_num [histEQ_white_point])

/-- C7: the COLOR_NEGATIVE pipeline equals inversion followed by the
SLIDE pipeline: `colour_negative_processing img` is exactly the spec
chain ToneEqualizer (`hist_EQ`) → multiplicative WhiteBalancer
(`wb_adjust_coeff`, entry 1 of `wb_mode`) → ExposureCurve (`exposure`) →
SaturationAdjuster (`sat_adjust`) → clip to [0, 65535] applied to
`65535 − img`. -/
theorem colour_negative_is_inverted_slide (pct : Img V3 → ℚ → V3)
    (cf : Img V3 → Img V3) (picked : V3) (bp_pct wp_pct : ℚ) (p : Params)
    (img : Img V3) :
    colour_negative_processing pct cf picked bp_pct wp_pct p img =
      slideSpecChain pct cf picked bp_pct wp_pct p (invert16 img) := rfl

theorem load_fields (rr : Option β) (s : PhotoState β) :
    (load rr s).IMG = s.IMG ∧ (load rr s).dust_mask = s.dust_mask ∧
    (load rr s).processed = s.processed ∧
    (load rr s).active_processes = s.active_processes := by
  cases rr <;> exact ⟨rfl, rfl, rfl, rfl⟩

theorem process_entry_fields (rr : Option β) (s0 : PhotoState β) :
    (process_entry rr s0).IMG = s0.IMG ∧
    (process_entry rr s0).dust_mask = s0.dust_mask ∧
    (process_entry rr s0).processed = s0.processed ∧
    (process_entry rr s0).active_processes = s0.active_processes := by
  unfold process_entry
  split
  · exact load_fields rr s0
  · exact ⟨rfl, rfl, rfl, rfl⟩

theorem process_cropPhase_fields (O : ProcOracles β) (mps : ℚ) (skip : Bool)
    (s : PhotoState β) :
    (process_cropPhase O mps skip s).IMG = s.IMG ∧
    (process_cropPhase O mps skip s).dust_mask = s.dust_mask ∧
    (process_cropPhase O mps skip s).processed = s.processed ∧
    (process_cropPhase O mps skip s).active_processes = s.active_processes := by
  unfold process_cropPhase
  split
  · cases s.RAW_IMG with
    | none => exact ⟨rfl, rfl, rfl, rfl⟩
    | some raw =>
      dsimp only
      split <;> exact ⟨rfl, rfl, rfl, rfl⟩
  · exact ⟨rfl, rfl, rfl, rfl⟩

theorem process_s2_fields (rr : Option β) (s0 : PhotoState β) :
    (process_s2 rr s0).IMG = s0.IMG ∧
    (process_s2 rr s0).dust_mask = s0.dust_mask ∧
    (process_s2 rr s0).processed = s0.processed ∧
    (process_s2 rr s0).active_processes = s0.active_processes + 1 := by
  obtain ⟨h1, h2, h3, h4⟩ := process_entry_fields rr s0
  unfold process_s2
  exact ⟨h1, h2, h3, by rw [← h4]⟩

theorem process_s3_fields (O : ProcOracles β) (mps : ℚ) (skip : Bool)
    (rr : Option β) (s0 : PhotoState β) :
    (process_s3 O mps skip rr s0).IMG = s0.IMG ∧
    (process_s3 O mps skip rr s0).dust_mask = s0.dust_mask ∧
    (process_s3 O mps skip rr s0).processed = s0.processed ∧
    (process_s3 O mps skip rr s0).active_processes = s0.active_processes + 1 := by
  obtain ⟨h1, h2, h3, h4⟩ := process_s2_fields rr s0
  obtain ⟨g1, g2, g3, g4⟩ := process_cropPhase_fields O mps skip (process_s2 rr s0)
  unfold process_s3
  exact ⟨g1.trans h1, g2.trans h2, g3.trans h3, g4.trans h4⟩

theorem process_s4_fields (O : ProcOracles β) (mps : ℚ) (skip : Bool)
    (rr : Option β) (d : ℤ) (s0 : PhotoState β) :
    (process_s4 O mps skip rr d s0).IMG = s0.IMG ∧
    (process_s4 O mps skip rr d s0).dust_mask = s0.dust_mask ∧
    (process_s4 O mps skip rr d s0).processed = s0.processed ∧
    (process_s4 O mps skip rr d s0).active_processes = s0.active_processes + d := by
  obtain ⟨h1, h2, h3, h4⟩ := process_s3_fields O mps skip rr s0
  unfold process_s4
  refine ⟨h1, h2, h3, ?_⟩
  show (process_s3 O mps skip rr s0).active_processes + d - 1 = s0.active_processes + d
  rw [h4]
  ring

/-- C2: latest-only commit semantics: in a `process` run with
`recent_only=True` that completes normally, if after the decrement of this run
the counter is still positive (newer invocations outstanding, the
concurrent net change being `d`) the result is silently discarded — the
externally visible `IMG`, `dust_mask` and `processed` fields are left
exactly as they were; otherwise the computed result is committed
atomically.  Moreover no state the run writes before that final step
(`process_midStates`) ever differs from the initial state on those three
fields: the visible current result is never mutated mid-run. -/
theorem process_latest_only (β : Type) (O : ProcOracles β) (rr : Option β)
    (d : ℤ) (mps : ℚ) (s0 : PhotoState β) (full_res skip_crop : Bool)
    (sf : PhotoState β)
    (hok : (process_entry rr s0).FileReadError = false)
    (hrun : process O rr d mps s0 full_res true skip_crop = some sf) :
    (0 < s0.active_processes + d →
      sf.IMG = s0.IMG ∧ sf.dust_mask = s0.dust_mask ∧ sf.processed = s0.processed) ∧
    (s0.active_processes + d ≤ 0 →
      sf.processed = true ∧
      sf.IMG = (process_result O full_res
        (process_s3 O mps skip_crop rr s0)).map Prod.fst ∧
      sf.dust_mask = (process_result O full_res
        (process_s3 O mps skip_crop rr s0)).map Prod.snd) ∧
    (∀ t ∈ process_midStates O rr d mps s0 skip_crop,
      t.IMG = s0.IMG ∧ t.dust_mask = s0.dust_mask ∧ t.processed = s0.processed) := by
  obtain ⟨e1, e2, e3, e4⟩ := process_entry_fields rr s0
  obtain ⟨a1, a2, a3, a4⟩ := process_s2_fields rr s0
  obtain ⟨b1, b2, b3, b4⟩ := process_s3_fields O mps skip_crop rr s0
  obtain ⟨c1, c2, c3, c4⟩ := process_s4_fields O mps skip_crop rr d s0
  unfold process at hrun
  simp only [hok, Bool.false_eq_true, if_false] at hrun
  refine ⟨?_, ?_, ?_⟩
  · intro hpos
    cases hres : process_result O full_res (process_s3 O mps skip_crop rr s0) with
    | none => rw [hres] at hrun; simp at hrun
    | some res =>
      rw [hres] at hrun
      have hcond : (true && decide (0 < (process_s4 O mps skip_crop rr d s0).active_processes)) = true := by
        rw [c4]
        simpa using hpos
      rw [hcond] at hrun
      simp only [if_true, Option.some.injEq] at hrun
      rw [← hrun]
      exact ⟨c1, c2, c3⟩
  · intro hle
    cases hres : process_result O full_res (process_s3 O mps skip_crop rr s0) with
    | none => rw [hres] at hrun; simp at hrun
    | some res =>
      rw [hres] at hrun
      have hcond : (true && decide (0 < (process_s4 O mps skip_crop rr d s0).active_processes)) = false := by
        rw [c4]
        simpa using hle
      rw [hcond] at hrun
      simp only [Bool.false_eq_true, if_false, Option.some.injEq] at hrun
      rw [← hrun]
      exact ⟨rfl, rfl, rfl⟩
  · intro t ht
    simp only [process_midStates, List.mem_cons, List.not_mem_nil, or_false] at ht
    rcases ht with h | h | h | h <;> rw [h]
    · exact ⟨e1, e2, e3⟩
    · exact ⟨a1, a2, a3⟩
    · exact ⟨b1, b2, b3⟩
    · exact ⟨c1, c2, c3⟩

/-- C2 witness: a concrete run with `recent_only=True` whose counter is
still positive after the decrement (net concurrent change +1): the
visible fields are exactly the initial ones. -/
theorem process_latest_only_witness :
    (PhotoState.mk false false false false 1 (some ()) none (some ()) none none none none
        0 false ((0 : ℚ), (0 : ℚ), (0 : ℚ))).IMG =
      (PhotoState.mk false false false false 0 (some ()) none none none none none none
        0 false ((0 : ℚ), (0 : ℚ), (0 : ℚ))).IMG ∧
    (PhotoState.mk false false false false 1 (some ()) none (some ()) none none none none
        0 false ((0 : ℚ), (0 : ℚ), (0 : ℚ))).dust_mask =
      (PhotoState.mk false false false false 0 (some ()) none none none none none none
        0 false ((0 : ℚ), (0 : ℚ), (0 : ℚ))).dust_mask ∧
    (PhotoState.mk false false false false 1 (some ()) none (some ()) none none none none
        0 false ((0 : ℚ), (0 : ℚ), (0 : ℚ))).processed =
      (PhotoState.mk false false false false 0 (some ()) none none none none none none
        0 false ((0 : ℚ), (0 : ℚ), (0 : ℚ))).processed :=
  (process_latest_only Unit
    ⟨fun _ => ((), none, none), fun _ => (0, 0), fun _ _ _ => (), fun _ => (),
     fun _ _ => (), fun _ => (), fun _ => (), fun _ => ()⟩
    (some ()) 1 2000
    (PhotoState.mk false false false false 0 (some ()) none none none none none none
      0 false (0, 0, 0))
    false false
    (PhotoState.mk false false false false 1 (some ()) none (some ()) none none none none
      0 false (0, 0, 0))
    rfl rfl).1 (by norm_num)

/-- C10: active-process counter balance: a `process` invocation that
completes increments the counter exactly once at the start
(`process_s2`), leaves it unchanged through the crop phase
(`process_s3`), decrements exactly once before returning (`process_s4`,
on the commit path and the latest-only discard path alike), so the final
counter is the initial one plus only the concurrent net change `d`;
when `FileReadError` causes the early return, the counter is not touched
at all. -/
theorem process_active_balance (β : Type) (O : ProcOracles β) (rr : Option β)
    (d : ℤ) (mps : ℚ) (s0 : PhotoState β) (full_res recent_only skip_crop : Bool)
    (sf : PhotoState β)
    (hrun : process O rr d mps s0 full_res recent_only skip_crop = some sf) :
    sf.active_processes =
      (if (process_entry rr s0).FileReadError then s0.active_processes
       else s0.active_processes + d) ∧
    (process_s2 rr s0).active_processes = (process_entry rr s0).active_processes + 1 ∧
    (process_s3 O mps skip_crop rr s0).active_processes =
      (process_s2 rr s0).active_processes ∧
    (process_s4 O mps skip_crop rr d s0).active_processes =
      (process_s3 O mps skip_crop rr s0).active_processes + d - 1 := by
  obtain ⟨e1, e2, e3, e4⟩ := process_entry_fields rr s0
  refine ⟨?_, ?_, ?_, ?_⟩
  · cases hfe : (process_entry rr s0).FileReadError with
    | true =>
      unfold process at hrun
      simp only [hfe, if_true] at hrun
      simp only [Option.some.injEq] at hrun
      rw [if_pos rfl]
      rw [← hrun]
      exact e4
    | false =>
      unfold process at hrun
      simp only [hfe, Bool.false_eq_true, if_false] at hrun
      rw [if_neg (by simp)]
      cases hres : process_result O full_res (process_s3 O mps skip_crop rr s0) with
      | none => rw [hres] at hrun; simp at hrun
      | some res =>
        rw [hres] at hrun
        obtain ⟨c1, c2, c3, c4⟩ := process_s4_fields O mps skip_crop rr d s0
        cases hcc : (recent_only &&
            decide (0 < (process_s4 O mps skip_crop rr d s0).active_processes)) with
        | true =>
          rw [hcc] at hrun
          simp only [if_true, Option.some.injEq] at hrun
          rw [← hrun]
          exact c4
        | false =>
          rw [hcc] at hrun
          simp only [Bool.false_eq_true, if_false, Option.some.injEq] at hrun
          rw [← hrun]
          exact c4
  · unfold process_s2
    rfl
  · exact (process_cropPhase_fields O mps skip_crop (process_s2 rr s0)).2.2.2
  · unfold process_s4
    rfl

/-- C10 witness: a concrete completed run (net concurrent change 0) whose
final counter equals the initial one. -/
theorem process_active_balance_witness :
    (PhotoState.mk false false true false 0 (some ()) none (some ()) none none (some ())
        (some ()) 0 false ((0 : ℚ), (0 : ℚ), (0 : ℚ))).active_processes =
      (if (process_entry (some ())
            (PhotoState.mk false false false false 0 (some ()) none none none none none
              none 0 false ((0 : ℚ), (0 : ℚ), (0 : ℚ)))).FileReadError
       then (PhotoState.mk false false false false 0 (some ()) none none none none none
              none 0 false ((0 : ℚ), (0 : ℚ), (0 : ℚ))).active_processes
       else (PhotoState.mk false false false false 0 (some ()) none none none none none
              none 0 false ((0 : ℚ), (0 : ℚ), (0 : ℚ))).active_processes + 0) :=
  (process_active_balance Unit
    ⟨fun _ => ((), none, none), fun _ => (0, 0), fun _ _ _ => (), fun _ => (),
     fun _ _ => (), fun _ => (), fun _ => (), fun _ => ()⟩
    (some ()) 0 2000
    (PhotoState.mk false false false false 0 (some ()) none none none none none none
      0 false (0, 0, 0))
    false false false
    (PhotoState.mk false false true false 0 (some ()) none (some ()) none none (some ())
      (some ()) 0 false (0, 0, 0))
    rfl).1

/-- C9 counterexample: `get_base_colour` performs no `FileReadError`
check: on a photo marked unreadable (flag set, pixel data absent) it does
not no-op — it touches the absent `RAW_IMG` and fails (modelled `none`),
instead of returning the state unchanged as the claim requires of every
operation. -/
theorem get_base_colour_unguarded :
    get_base_colour (BaseColourOracles.mk (fun (_ : Unit) _ _ => (0, 0, 0)))
      (PhotoState.mk true true false false 0 none none none none none none none
        0 false (0, 0, 0)) (1/2) (1/2) = none ∧
    get_base_colour (BaseColourOracles.mk (fun (_ : Unit) _ _ => (0, 0, 0)))
      (PhotoState.mk true true false false 0 none none none none none none none
        0 false (0, 0, 0)) (1/2) (1/2) ≠
      some (PhotoState.mk true true false false 0 none none none none none none none
        0 false (0, 0, 0)) :=
  ⟨rfl, fun h => Option.noConfusion h⟩

/-- C9 (amended): once `FileReadError` is set, `process` returns without
modifying any state (whenever the RAW buffer reference exists, it does
not even retry the load) and `get_IMG` returns nothing, for every output
selector; but not every pixel-touching operation checks the flag:
`get_base_colour` reads `RAW_IMG` unguarded (see the counterexample), and
`export`/`save_settings` likewise contain no `FileReadError` check
(`export` is instead guarded by the absence of the result buffer). -/
theorem fileReadError_guards (β : Type) (O : ProcOracles β) (GO : GetImgOracles β)
    (rr : Option β) (d : ℤ) (mps : ℚ) (s : PhotoState β)
    (full_res recent_only skip_crop : Bool) (output : GetOutput)
    (hfe : s.FileReadError = true) :
    (s.RAW_IMG.isSome = true →
      process O rr d mps s full_res recent_only skip_crop = some s) ∧
    get_IMG GO s output = some none := by
  constructor
  · intro hs
    have hnone : s.RAW_IMG.isNone = false := by
      cases hR : s.RAW_IMG with
      | none => rw [hR] at hs; simp at hs
      | some v => rfl
    have he : process_entry rr s = s := by
      unfold process_entry
      rw [hnone]
      simp
    unfold process
    simp only [he, hfe, if_true]
  · unfold get_IMG
    rw [hfe]
    simp

/-- C9 amended-claim witness: a concrete unreadable photo (flag set, RAW
reference still present): `process` returns the state unchanged and
`get_IMG` returns nothing. -/
theorem fileReadError_guards_witness :
    process
      (⟨fun _ => ((), none, none), fun _ => (0, 0), fun _ _ _ => (), fun _ => (),
        fun _ _ => (), fun _ => (), fun _ => (), fun _ => ()⟩ : ProcOracles Unit)
      none 0 2000
      (PhotoState.mk true false false false 0 (some ()) none none none none none none
        0 false (0, 0, 0))
      false false false =
      some (PhotoState.mk true false false false 0 (some ()) none none none none none
        none 0 false (0, 0, 0)) ∧
    get_IMG (GetImgOracles.mk (fun _ => ()) (fun _ _ _ => ()) (fun _ => ())
        (fun _ _ => ()) (fun _ => ()))
      (PhotoState.mk true false false false 0 (some ()) none none none none none none
        0 false (0, 0, 0)) GetOutput.RAW = some none := by
  have h := fileReadError_guards Unit
    ⟨fun _ => ((), none, none), fun _ => (0, 0), fun _ _ _ => (), fun _ => (),
     fun _ _ => (), fun _ => (), fun _ => (), fun _ => ()⟩
    (GetImgOracles.mk (fun _ => ()) (fun _ _ _ => ()) (fun _ => ())
      (fun _ _ => ()) (fun _ => ()))
    none 0 2000
    (PhotoState.mk true false false false 0 (some ()) none none none none none none
      0 false (0, 0, 0))
    false false false GetOutput.RAW rfl
  exact ⟨h.1 rfl, h.2⟩
